import Mathlib

/-!
Verification of the request-translator Lambda handler (src/lambda/index.py).

The handler receives an invocation event, forwards the chat message to a
configured FastAPI endpoint via HTTP POST, and wraps the outcome in a
success or error envelope.  We embed the Python code shallowly:

* JSON values (the universe of Python data appearing here) are the
  inductive type `Json`; numbers are modelled as integers (no claim
  involves non-integral numbers).
* Python exceptions are modelled with `Except PyError`; the single
  top-level `try/except Exception` of the source becomes the `match`
  in `lambda_handler`.
* `os.environ.get("FASTAPI_ENDPOINT_URL")` is the parameter
  `url : Option String`; the Python truthiness test `not url` is
  `urlFalsy`.
* The outbound HTTP call `urllib.request.urlopen` is the oracle
  parameter `net : String -> String -> HttpOutcome`, mapping the target
  URL and the posted data to the observed outcome (a response with a
  status code and body, an HTTPError, or a URLError).
* `json.loads` is `json_loads` (backed by the executable `jsonParse`),
  and `json.dumps` is `jsonDumps`, both following the Python library
  behaviour on the fragment exercised here (ensure_ascii escaping,
  separators ", " and ": ").
-/

/-- The left curly bracket character, kept symbolic. -/
def lcurly : Char := Char.ofNat 123

/-- The right curly bracket character, kept symbolic. -/
def rcurly : Char := Char.ofNat 125

/-- The single-quote character, kept symbolic. -/
def squote : Char := Char.ofNat 39

/-- A JSON value: the data universe of the handler.  Python `None`, `bool`,
`int`, `str`, `list` and `dict` values that occur in the handler are all of
this shape. -/
inductive Json where
  | null
  | bool (b : Bool)
  | num (n : Int)
  | str (s : String)
  | arr (elems : List Json)
  | obj (fields : List (String × Json))

/-- Hexadecimal digit character for `n < 16`, lowercase as in Python. -/
def hexChar (n : Nat) : Char :=
  if n < 10 then Char.ofNat (48 + n) else Char.ofNat (87 + n)

/-- Four-digit hexadecimal rendering of `n % 65536`, as in `\uXXXX`. -/
def hexFour (n : Nat) : List Char :=
  [hexChar (n / 4096 % 16), hexChar (n / 256 % 16), hexChar (n / 16 % 16), hexChar (n % 16)]

/-- Escaping of one character in `json.dumps` output (default
`ensure_ascii=True`): printable ASCII passes through, quotes and
backslashes get a backslash, everything else becomes `\uXXXX`
(with a surrogate pair beyond the basic plane). -/
def dumpChar (c : Char) : List Char :=
  let n := c.toNat
  if c = '"' then ['\\', '"']
  else if c = '\\' then ['\\', '\\']
  else if 32 ≤ n && n ≤ 126 then [c]
  else if n = 8 then ['\\', 'b']
  else if n = 9 then ['\\', 't']
  else if n = 10 then ['\\', 'n']
  else if n = 12 then ['\\', 'f']
  else if n = 13 then ['\\', 'r']
  else if n < 65536 then '\\' :: 'u' :: hexFour n
  else
    ('\\' :: 'u' :: hexFour (55296 + (n - 65536) / 1024)) ++
    ('\\' :: 'u' :: hexFour (56320 + (n - 65536) % 1024))

/-- A Python string literal as `json.dumps` prints it, quotes included. -/
def dumpString (s : String) : List Char :=
  '"' :: (s.data.foldr (fun c acc => dumpChar c ++ acc) ['"'])

mutual

/-- Rendering of `json.dumps` with the default separators (", " between items, ": "
after keys), producing the character list of the output. -/
def dumpJson : Json → List Char
  | .null => "null".data
  | .bool b => (cond b "true" "false").data
  | .num n => (toString n).data
  | .str s => dumpString s
  | .arr elems => '[' :: (dumpArr elems ++ [']'])
  | .obj fields => lcurly :: (dumpObj fields ++ [rcurly])

/-- Array items of `dumpJson`, comma-space separated. -/
def dumpArr : List Json → List Char
  | [] => []
  | [x] => dumpJson x
  | x :: y :: rest => dumpJson x ++ ',' :: ' ' :: dumpArr (y :: rest)

/-- Object members of `dumpJson`, comma-space separated, colon-space keyed. -/
def dumpObj : List (String × Json) → List Char
  | [] => []
  | [(k, v)] => dumpString k ++ ':' :: ' ' :: dumpJson v
  | (k, v) :: m :: rest => dumpString k ++ ':' :: ' ' :: dumpJson v ++ ',' :: ' ' :: dumpObj (m :: rest)

end

/-- The function `json.dumps`, as a `String`-valued function. -/
def jsonDumps (j : Json) : String := ⟨dumpJson j⟩

/-- Whitespace characters skipped by the Python JSON decoder. -/
def jsonWs (c : Char) : Bool := c = ' ' || c = '\t' || c = '\n' || c = '\r'

/-- Drop leading JSON whitespace. -/
def dropWs : List Char → List Char
  | c :: rest => if jsonWs c then dropWs rest else c :: rest
  | [] => []

/-- Numeric value of one hexadecimal digit character, if it is one. -/
def unhex (c : Char) : Option Nat :=
  let n := c.toNat
  if 48 ≤ n && n ≤ 57 then some (n - 48)
  else if 97 ≤ n && n ≤ 102 then some (n - 87)
  else if 65 ≤ n && n ≤ 70 then some (n - 55)
  else none

/-- Read exactly four hexadecimal digits (the payload of a `\uXXXX` escape). -/
def readHex4 : List Char → Option (Nat × List Char)
  | a :: b :: c :: d :: rest =>
    match unhex a, unhex b, unhex c, unhex d with
    | some va, some vb, some vc, some vd =>
      some (((va * 16 + vb) * 16 + vc) * 16 + vd, rest)
    | _, _, _, _ => none
  | _ => none

/-- Decode the body of a JSON string after the opening quote, strict mode:
raw control characters are rejected, escapes are the JSON ones, and a
`\uXXXX` surrogate pair is combined into one character.  (Python would
keep a lone surrogate in the decoded string; Lean characters cannot hold
one, so a lone surrogate is a parse failure here - no claim involves
such input.)  Fuel-indexed for structural totality. -/
def parseStrBody : Nat → List Char → Option (List Char × List Char)
  | 0, _ => none
  | _ + 1, [] => none
  | fuel + 1, c :: rest =>
    if c = '"' then some ([], rest)
    else if c = '\\' then
      match rest with
      | [] => none
      | e :: rest2 =>
        if e = '"' || e = '\\' || e = '/' then
          (parseStrBody fuel rest2).map fun p => (e :: p.1, p.2)
        else if e = 'b' then (parseStrBody fuel rest2).map fun p => (Char.ofNat 8 :: p.1, p.2)
        else if e = 'f' then (parseStrBody fuel rest2).map fun p => (Char.ofNat 12 :: p.1, p.2)
        else if e = 'n' then (parseStrBody fuel rest2).map fun p => ('\n' :: p.1, p.2)
        else if e = 'r' then (parseStrBody fuel rest2).map fun p => ('\r' :: p.1, p.2)
        else if e = 't' then (parseStrBody fuel rest2).map fun p => ('\t' :: p.1, p.2)
        else if e = 'u' then
          match readHex4 rest2 with
          | none => none
          | some (n, rest3) =>
            if 55296 ≤ n && n ≤ 56319 then
              match rest3 with
              | b1 :: b2 :: rest4 =>
                if b1 = '\\' && b2 = 'u' then
                  match readHex4 rest4 with
                  | some (m, rest5) =>
                    if 56320 ≤ m && m ≤ 57343 then
                      (parseStrBody fuel rest5).map fun p =>
                        (Char.ofNat (65536 + (n - 55296) * 1024 + (m - 56320)) :: p.1, p.2)
                    else none
                  | none => none
                else none
              | _ => none
            else if 56320 ≤ n && n ≤ 57343 then none
            else (parseStrBody fuel rest3).map fun p => (Char.ofNat n :: p.1, p.2)
        else none
    else if c.toNat < 32 then none
    else (parseStrBody fuel rest).map fun p => (c :: p.1, p.2)

/-- Split a maximal run of decimal digits off the front of the input. -/
def takeDigitChars : List Char → List Char × List Char
  | c :: rest =>
    if c.isDigit then
      let p := takeDigitChars rest
      (c :: p.1, p.2)
    else ([], c :: rest)
  | [] => ([], [])

/-- Numeric value of a run of decimal digit characters. -/
def digitsVal (ds : List Char) : Nat :=
  ds.foldl (fun acc c => acc * 10 + (c.toNat - 48)) 0

/-- Read a JSON integer token: optional minus, then digits with no
redundant leading zero, as in the Python number grammar.  A following
fraction or exponent marker is rejected: floating-point numbers are
outside this model, and no claim touches them. -/
def parseIntTok (cs : List Char) : Option (Int × List Char) :=
  let (neg, cs1) : Bool × List Char :=
    match cs with
    | c :: r => if c = '-' then (true, r) else (false, cs)
    | [] => (false, cs)
  match cs1 with
  | [] => none
  | d :: tl =>
    if !d.isDigit then none
    else
      let p : List Char × List Char :=
        if d = '0' then ([d], tl) else takeDigitChars (d :: tl)
      let bad : Bool :=
        match p.2 with
        | e :: _ => e = '.' || e = 'e' || e = 'E'
        | [] => false
      if bad then none
      else some ((if neg then (-1 : Int) else 1) * (digitsVal p.1 : Int), p.2)

/-- Insert a key into a decoded object the way the Python decoder fills a
dict: an existing key keeps its position and takes the new value, a new
key goes at the end. -/
def objInsert : List (String × Json) → String → Json → List (String × Json)
  | [], k, v => [(k, v)]
  | (k0, v0) :: rest, k, v =>
    if k0 = k then (k0, v) :: rest else (k0, v0) :: objInsert rest k v

mutual

/-- Parse one JSON value (fuel-indexed recursive descent; the fuel is
spent once per grammar production, so any well-formed document of
length `n` parses within fuel `n + 1`). -/
def parseJsonVal : Nat → List Char → Option (Json × List Char)
  | 0, _ => none
  | fuel + 1, cs =>
    match dropWs cs with
    | [] => none
    | c :: rest =>
      if c = '"' then (parseStrBody (fuel + 1) rest).map fun p => (Json.str ⟨p.1⟩, p.2)
      else if c = lcurly then parseJsonObjBody fuel rest
      else if c = '[' then parseJsonArrBody fuel rest
      else if c = 'n' then
        match rest with
        | 'u' :: 'l' :: 'l' :: r => some (Json.null, r)
        | _ => none
      else if c = 't' then
        match rest with
        | 'r' :: 'u' :: 'e' :: r => some (Json.bool true, r)
        | _ => none
      else if c = 'f' then
        match rest with
        | 'a' :: 'l' :: 's' :: 'e' :: r => some (Json.bool false, r)
        | _ => none
      else if c = '-' || c.isDigit then
        (parseIntTok (c :: rest)).map fun p => (Json.num p.1, p.2)
      else none

/-- Parse an array body, after the opening square bracket. -/
def parseJsonArrBody : Nat → List Char → Option (Json × List Char)
  | 0, _ => none
  | fuel + 1, cs =>
    match dropWs cs with
    | [] => none
    | c :: rest =>
      if c = ']' then some (Json.arr [], rest)
      else
        match parseJsonVal fuel (c :: rest) with
        | none => none
        | some (v, r1) => parseJsonArrRest fuel r1 [v]

/-- Parse the remaining elements of a non-empty array; `acc` holds the
elements read so far, most recent first. -/
def parseJsonArrRest : Nat → List Char → List Json → Option (Json × List Char)
  | 0, _, _ => none
  | fuel + 1, cs, acc =>
    match dropWs cs with
    | [] => none
    | c :: rest =>
      if c = ']' then some (Json.arr acc.reverse, rest)
      else if c = ',' then
        match parseJsonVal fuel rest with
        | none => none
        | some (v, r1) => parseJsonArrRest fuel r1 (v :: acc)
      else none

/-- Parse an object body, after the opening curly bracket. -/
def parseJsonObjBody : Nat → List Char → Option (Json × List Char)
  | 0, _ => none
  | fuel + 1, cs =>
    match dropWs cs with
    | [] => none
    | c :: rest =>
      if c = rcurly then some (Json.obj [], rest)
      else if c = '"' then
        match parseStrBody (fuel + 1) rest with
        | none => none
        | some (k, r1) =>
          match dropWs r1 with
          | [] => none
          | sep :: r2 =>
            if sep = ':' then
              match parseJsonVal fuel r2 with
              | none => none
              | some (v, r3) => parseJsonObjRest fuel r3 (objInsert [] ⟨k⟩ v)
            else none
      else none

/-- Parse the remaining members of a non-empty object; `acc` holds the
members read so far in document order. -/
def parseJsonObjRest : Nat → List Char → List (String × Json) → Option (Json × List Char)
  | 0, _, _ => none
  | fuel + 1, cs, acc =>
    match dropWs cs with
    | [] => none
    | c :: rest =>
      if c = rcurly then some (Json.obj acc, rest)
      else if c = ',' then
        match dropWs rest with
        | [] => none
        | q :: r1 =>
          if q = '"' then
            match parseStrBody (fuel + 1) r1 with
            | none => none
            | some (k, r2) =>
              match dropWs r2 with
              | [] => none
              | sep :: r3 =>
                if sep = ':' then
                  match parseJsonVal fuel r3 with
                  | none => none
                  | some (v, r4) => parseJsonObjRest fuel r4 (objInsert acc ⟨k⟩ v)
                else none
          else none
      else none

end

/-- The function `json.loads` on a string: parse one document and require only
whitespace after it. -/
def jsonParse (s : String) : Option Json :=
  match parseJsonVal (s.length + 1) s.data with
  | some (v, rest) => if (dropWs rest).isEmpty then some v else none
  | none => none

/-- The single-quote character as a string (used in Python error texts). -/
def sqs : String := String.singleton squote

/-- Does the second list start with the first? -/
def listStarts : List Char → List Char → Bool
  | a :: as, b :: bs => a = b && listStarts as bs
  | needle, _ => needle.isEmpty

/-- Does the second list contain the first as a contiguous run?  (The
Python substring test behind `key in someString`.) -/
def listHasInfix (needle : List Char) : List Char → Bool
  | [] => listStarts needle []
  | c :: rest => listStarts needle (c :: rest) || listHasInfix needle rest

/-- The Python exceptions that can arise in the handler.  Only the kind
and the message matter to the caller-visible behaviour, because the one
top-level handler turns `str(error)` into the error envelope. -/
inductive PyError where
  | keyError (key : String)
  | typeError (msg : String)
  | valueError (msg : String)
  | attributeError (msg : String)
  | jsonDecodeError (msg : String)
  | exception (msg : String)

/-- Computation of `str(error)`: the text the error envelope carries.  `str` of a
`KeyError` is the quoted key; for the other kinds it is the message the
raise site supplied. -/
def strError : PyError → String
  | .keyError k => sqs ++ k ++ sqs
  | .typeError m => m
  | .valueError m => m
  | .attributeError m => m
  | .jsonDecodeError m => m
  | .exception m => m

/-- First-match lookup in an object field list (Python dict lookup; the
objects built by the code and by the decoder have unique keys). -/
def objGet : List (String × Json) → String → Option Json
  | [], _ => none
  | (k, v) :: rest, key => if k = key then some v else objGet rest key

/-- Python subscript `x[key]` with a string key: dict lookup (KeyError
when absent); a TypeError on lists, strings and the other values, as in
CPython. -/
def pySubscript : Json → String → Except PyError Json
  | .obj fields, key =>
    match objGet fields key with
    | some v => .ok v
    | none => .error (.keyError key)
  | .arr _, _ => .error (.typeError "list indices must be integers or slices, not str")
  | .str _, _ => .error (.typeError "string indices must be integers")
  | _, _ => .error (.typeError "object is not subscriptable")

/-- Python membership `key in x`: key lookup on a dict, element equality
on a list, substring test on a string, TypeError otherwise. -/
def pyContains : Json → String → Except PyError Bool
  | .obj fields, key => .ok (objGet fields key).isSome
  | .arr elems, key =>
    .ok (elems.any fun j =>
      match j with
      | .str s => s = key
      | _ => false)
  | .str s, key => .ok (listHasInfix key.data s.data)
  | _, _ => .error (.typeError "argument is not iterable")

/-- Python `d.get(key, default)`: needs a dict (AttributeError otherwise),
never raises on a dict. -/
def pyDictGet (j : Json) (key : String) (default : Json) : Except PyError Json :=
  match j with
  | .obj fields => .ok ((objGet fields key).getD default)
  | _ => .error (.attributeError "object has no attribute get")

/-- Python truthiness: `None`, `False`, zero, the empty string, the empty
list and the empty dict are falsy. -/
def pyFalsy : Json → Bool
  | .null => true
  | .bool b => !b
  | .num n => n = 0
  | .str s => s = ""
  | .arr l => l.isEmpty
  | .obj f => f.isEmpty

/-- Python `x.copy()`: lists and dicts have it, the other values raise
AttributeError. -/
def pyCopy : Json → Except PyError Json
  | .arr l => .ok (.arr l)
  | .obj f => .ok (.obj f)
  | _ => .error (.attributeError "object has no attribute copy")

/-- Python `x.append(item)`: only lists have it. -/
def pyListAppend : Json → Json → Except PyError Json
  | .arr l, item => .ok (.arr (l ++ [item]))
  | _, _ => .error (.attributeError "object has no attribute append")

/-- Python `json.loads(x)`: the argument must be a string (TypeError
otherwise), and the string must parse (JSONDecodeError otherwise). -/
def json_loads (j : Json) : Except PyError Json :=
  match j with
  | .str s =>
    match jsonParse s with
    | some v => .ok v
    | none => .error (.jsonDecodeError "Expecting value")
  | _ => .error (.typeError "the JSON object must be str, bytes or bytearray")

/-- Truthiness of the module-level `FASTAPI_ENDPOINT_URL` value:
`os.environ.get` yields `None` when unset, and `not url` also holds for
the empty string. -/
def urlFalsy : Option String → Bool
  | none => true
  | some s => s = ""

/-- The outcome the handler observes from `urllib.request.urlopen`: a
response object carrying a status code and a body, a raised
`urllib.error.HTTPError` with a code and reason, or a raised
`urllib.error.URLError` with a reason. -/
inductive HttpOutcome where
  | response (status : Nat) (body : String)
  | httpError (code : Nat) (reason : String)
  | urlError (reason : String)

/-- The caller-facing envelope: a status code, the header mapping, and a
JSON-encoded body string. -/
structure Envelope where
  statusCode : Nat
  headers : List (String × String)
  body : String
deriving DecidableEq

/-- The fixed CORS header mapping, shared verbatim by the success return
(lines 110-115) and the error return (lines 128-133). -/
def corsHeaders : List (String × String) :=
  [("Content-Type", "application/json"),
   ("Access-Control-Allow-Origin", "*"),
   ("Access-Control-Allow-Headers", "Content-Type,X-Amz-Date,Authorization,X-Api-Key,X-Amz-Security-Token"),
   ("Access-Control-Allow-Methods", "OPTIONS,POST")]

/-- The success envelope of lines 108-121: status 200, the CORS headers,
and the dumped body with `success`, `response` and `conversationHistory`. -/
def successEnvelope (response messages : Json) : Envelope :=
  { statusCode := 200,
    headers := corsHeaders,
    body := jsonDumps (Json.obj
      [("success", Json.bool true),
       ("response", response),
       ("conversationHistory", messages)]) }

/-- The error envelope of lines 126-137: status 500, the same CORS
headers, and the dumped body with `success` and `error`. -/
def errorEnvelope (msg : String) : Envelope :=
  { statusCode := 500,
    headers := corsHeaders,
    body := jsonDumps (Json.obj
      [("success", Json.bool false),
       ("error", Json.str msg)]) }

/-- Lines 41-44: the optional identity-claims read.  The guard is
`if requestContext in event and authorizer in event[requestContext]`;
inside it, `event[requestContext][authorizer][claims]` is subscripted
unconditionally, and `user_info.get(...)` requires the claims value to
be a dict.  The value feeds a log line only, so the residual effect on
the program is exactly the set of exceptions these operations can
raise. -/
def checkUserInfo (event : Json) : Except PyError Unit :=
  match pyContains event "requestContext" with
  | .error e => .error e
  | .ok false => .ok ()
  | .ok true =>
    match pySubscript event "requestContext" with
    | .error e => .error e
    | .ok rc =>
      match pyContains rc "authorizer" with
      | .error e => .error e
      | .ok false => .ok ()
      | .ok true =>
        match pySubscript rc "authorizer" with
        | .error e => .error e
        | .ok authz =>
          match pySubscript authz "claims" with
          | .error e => .error e
          | .ok user_info =>
            match user_info with
            | .obj _ => .ok ()
            | _ => .error (.attributeError "object has no attribute get")

/-- The body of the top-level `try` (lines 26-121).  On success it
yields the pair of `assistant_response` and the final `messages` list,
from which line 108 builds the success envelope; every raise surfaces
as `.error`. -/
def runHandler (url : Option String) (net : String → String → HttpOutcome)
    (event : Json) : Except PyError (Json × Json) :=
  match url with
  | none =>
    .error (.valueError ("Environment variable " ++ sqs ++ "FASTAPI_ENDPOINT_URL" ++ sqs ++ " is not set."))
  | some u =>
    if u = "" then
      .error (.valueError ("Environment variable " ++ sqs ++ "FASTAPI_ENDPOINT_URL" ++ sqs ++ " is not set."))
    else
      match checkUserInfo event with
      | .error e => .error e
      | .ok _ =>
        match pySubscript event "body" with
        | .error e => .error e
        | .ok rawBody =>
          match json_loads rawBody with
          | .error e => .error e
          | .ok body =>
            match pySubscript body "message" with
            | .error e => .error e
            | .ok message =>
              match pyDictGet body "conversationHistory" (Json.arr []) with
              | .error e => .error e
              | .ok conversation_history =>
                let request_data := Json.obj
                  [("prompt", message),
                   ("conversationHistory", conversation_history)]
                let post_data := jsonDumps request_data
                match net u post_data with
                | .response code rbody =>
                  if code = 200 then
                    match json_loads (Json.str rbody) with
                    | .error e => .error e
                    | .ok api_response =>
                      match pyDictGet api_response "generated_text" Json.null with
                      | .error e => .error e
                      | .ok assistant_response =>
                        match pyDictGet api_response "conversationHistory" conversation_history with
                        | .error e => .error e
                        | .ok _updated_history =>
                          if pyFalsy assistant_response then
                            .error (.exception "No generated_text content received from FastAPI endpoint.")
                          else
                            match pyCopy conversation_history with
                            | .error e => .error e
                            | .ok messages0 =>
                              match pyListAppend messages0 (Json.obj
                                  [("role", Json.str "user"), ("content", message)]) with
                              | .error e => .error e
                              | .ok messages1 =>
                                match pyListAppend messages1 (Json.obj
                                    [("role", Json.str "assistant"), ("content", assistant_response)]) with
                                | .error e => .error e
                                | .ok messages => .ok (assistant_response, messages)
                  else
                    .error (.exception ("FastAPI endpoint returned status code " ++ toString code))
                | .httpError code reason =>
                  .error (.exception ("Failed to call FastAPI endpoint: " ++ toString code ++ " " ++ reason))
                | .urlError reason =>
                  .error (.exception ("Failed to connect to FastAPI endpoint: " ++ reason))

/-- The entry point `lambda_handler` (lines 25-138): run the body, and on any exception
return the uniform 500 envelope built from `str(error)`. -/
def lambda_handler (url : Option String) (net : String → String → HttpOutcome)
    (event : Json) : Envelope :=
  match runHandler url net event with
  | .ok (assistant_response, messages) => successEnvelope assistant_response messages
  | .error e => errorEnvelope (strError e)

/-- Two successive invocations with the same configuration, network
behaviour and event.  No module state other than the read-once URL
exists (the commented-out Bedrock client is the only mutable global in
the source, and it is never assigned), so a second call receives
exactly the same inputs. -/
def invokeTwice (url : Option String) (net : String → String → HttpOutcome)
    (event : Json) : Envelope × Envelope :=
  (lambda_handler url net event, lambda_handler url net event)

/-- The configuration error text of line 29. -/
def missingUrlMsg : String :=
  "Environment variable " ++ sqs ++ "FASTAPI_ENDPOINT_URL" ++ sqs ++ " is not set."

/-- C1 counterexample network stub: the downstream endpoint replies 200
with a non-empty `generated_text`. -/
def c1Net : String → String → HttpOutcome := fun _ _ =>
  HttpOutcome.response 200 (jsonDumps (Json.obj [("generated_text", Json.str "X")]))

/-- C1 counterexample event: the body parses as JSON and carries a
non-empty string `message`, but its `conversationHistory` is a number,
so `conversation_history.copy()` raises and the handler returns 500. -/
def c1Event : Json := Json.obj
  [("body", Json.str (jsonDumps (Json.obj
     [("message", Json.str "hi"), ("conversationHistory", Json.num 7)])))]

/-- C1 witness network stub (same downstream behaviour as `c1Net`). -/
def w1Net : String → String → HttpOutcome := fun _ _ =>
  HttpOutcome.response 200 (jsonDumps (Json.obj [("generated_text", Json.str "X")]))

/-- C1 witness event: a well-formed body with a message and no history. -/
def w1Event : Json := Json.obj
  [("body", Json.str (jsonDumps (Json.obj [("message", Json.str "hi")])))]

/-- C2 witness network stub: the downstream answer carries both a
`generated_text` and its own richer `conversationHistory`, which the
handler must discard. -/
def w2Net : String → String → HttpOutcome := fun _ _ =>
  HttpOutcome.response 200 (jsonDumps (Json.obj
    [("generated_text", Json.str "ok"),
     ("conversationHistory", Json.arr [Json.str "bogus"])]))

/-- C2 witness event: inbound history with one user turn and the message
`there`, as in the claim. -/
def w2Event : Json := Json.obj
  [("body", Json.str (jsonDumps (Json.obj
     [("message", Json.str "there"),
      ("conversationHistory", Json.arr [Json.obj
        [("role", Json.str "user"), ("content", Json.str "hi")]])])))]

/-- C6 witness network stub: 200 with an empty JSON object body. -/
def w6Net : String → String → HttpOutcome := fun _ _ =>
  HttpOutcome.response 200 (jsonDumps (Json.obj []))

/-- C7 witness network stub: the transport raises HTTPError 404, as
`urllib.request.urlopen` does on a 404 answer. -/
def w7Net : String → String → HttpOutcome := fun _ _ =>
  HttpOutcome.httpError 404 "Not Found"

/-- C3 network stub: a successful downstream answer. -/
def c3Net : String → String → HttpOutcome := fun _ _ =>
  HttpOutcome.response 200 (jsonDumps (Json.obj [("generated_text", Json.str "ok")]))

/-- C3 event with a claims mapping under `requestContext.authorizer`. -/
def c3EventWith : Json := Json.obj
  [("requestContext", Json.obj [("authorizer", Json.obj [("claims", Json.obj [])])]),
   ("body", Json.str (jsonDumps (Json.obj [("message", Json.str "hi")])))]

/-- The same event with the `claims` key removed and nothing else
changed. -/
def c3EventWithout : Json := Json.obj
  [("requestContext", Json.obj [("authorizer", Json.obj [])]),
   ("body", Json.str (jsonDumps (Json.obj [("message", Json.str "hi")])))]

/-- An event whose `requestContext.authorizer.claims` path is present,
holding the given claims value, with arbitrary sibling fields everywhere
(`authRest`, `rcRest` beside it and `rest` holding the body and anything
else). -/
def eventWithClaims (claims : Json) (authRest rcRest rest : List (String × Json)) : Json :=
  Json.obj (("requestContext", Json.obj
    (("authorizer", Json.obj (("claims", claims) :: authRest)) :: rcRest)) :: rest)

/-- Every invocation produces either the success envelope of line 108 or
the error envelope of line 126: the two `return` statements are the only
exits of `lambda_handler`. -/
theorem lambda_handler_shape (url : Option String) (net : String → String → HttpOutcome)
    (event : Json) :
    (∃ r m, lambda_handler url net event = successEnvelope r m) ∨
    (∃ msg, lambda_handler url net event = errorEnvelope msg) := by
  unfold lambda_handler
  cases h : runHandler url net event with
  | ok p =>
    obtain ⟨a, b⟩ := p
    exact Or.inl ⟨a, b, rfl⟩
  | error e =>
    exact Or.inr ⟨strError e, rfl⟩

/-- C4: every failing invocation, whatever the error kind, yields the one
uniform error envelope (status 500, the same fixed headers as the success
envelope, body with exactly `success = false` and a textual `error`), and
the result overall is always the full success envelope or this full error
envelope, never a mixed shape. -/
theorem C4_uniform_error_envelope (url : Option String)
    (net : String → String → HttpOutcome) (event : Json) :
    (∃ r m, lambda_handler url net event = successEnvelope r m) ∨
    (∃ msg, (lambda_handler url net event).statusCode = 500 ∧
      (lambda_handler url net event).headers = corsHeaders ∧
      (lambda_handler url net event).body =
        jsonDumps (Json.obj [("success", Json.bool false), ("error", Json.str msg)])) := by
  rcases lambda_handler_shape url net event with h | ⟨msg, h⟩
  · exact Or.inl h
  · exact Or.inr ⟨msg, by rw [h]; rfl, by rw [h]; rfl, by rw [h]; rfl⟩

/-- C10: the handler is total over its public interface: whatever the
event, the configuration and the network behaviour, it returns an
envelope with status 200 or 500; no exception escapes the top-level
handler. -/
theorem C10_totality (url : Option String) (net : String → String → HttpOutcome)
    (event : Json) :
    (lambda_handler url net event).statusCode = 200 ∨
    (lambda_handler url net event).statusCode = 500 := by
  rcases lambda_handler_shape url net event with ⟨r, m, h⟩ | ⟨msg, h⟩
  · exact Or.inl (by rw [h]; rfl)
  · exact Or.inr (by rw [h]; rfl)

/-- C5: when the configured endpoint URL is unset or empty, every
invocation returns the 500 envelope whose error text names the missing
environment variable, regardless of the event and of the network. -/
theorem C5_missing_configuration (url : Option String)
    (net : String → String → HttpOutcome) (event : Json)
    (h : urlFalsy url = true) :
    (lambda_handler url net event).statusCode = 500 ∧
    lambda_handler url net event = errorEnvelope missingUrlMsg := by
  cases url with
  | none => exact ⟨rfl, rfl⟩
  | some u =>
    have hu : u = "" := by simpa [urlFalsy] using h
    subst hu
    exact ⟨rfl, rfl⟩

/-- C5 witness: with an unset URL, a concrete event and network stub give
the 500 missing-configuration envelope. -/
theorem C5_missing_configuration_witness :
    urlFalsy none = true ∧
    ((lambda_handler none (fun _ _ => HttpOutcome.urlError "refused") Json.null).statusCode = 500 ∧
     lambda_handler none (fun _ _ => HttpOutcome.urlError "refused") Json.null =
       errorEnvelope missingUrlMsg) :=
  ⟨rfl, C5_missing_configuration none (fun _ _ => HttpOutcome.urlError "refused") Json.null rfl⟩

/-- C9: the handler is deterministic: two invocations with the same
configuration, the same event and the same network behaviour produce
identical envelopes (identical status, headers and body bytes). -/
theorem C9_deterministic (url : Option String) (net : String → String → HttpOutcome)
    (event : Json) :
    (invokeTwice url net event).1 = (invokeTwice url net event).2 := rfl

/-- C8: when the inbound body parses as JSON but the mapping has no
`message` key, the result is a 500 envelope with `success = false` (the
error-envelope shape), whatever the configuration and the network. -/
theorem C8_missing_message (url : Option String) (net : String → String → HttpOutcome)
    (event : Json) (bodyStr : String) (fields : List (String × Json))
    (hb : pySubscript event "body" = Except.ok (Json.str bodyStr))
    (hp : jsonParse bodyStr = some (Json.obj fields))
    (hm : objGet fields "message" = none) :
    (lambda_handler url net event).statusCode = 500 ∧
    ∃ msg, lambda_handler url net event = errorEnvelope msg := by
  have herr : ∃ e, runHandler url net event = Except.error e := by
    cases url with
    | none => exact ⟨_, rfl⟩
    | some u =>
      by_cases hu : u = ""
      · subst hu
        exact ⟨_, rfl⟩
      · simp only [runHandler, if_neg hu]
        cases hc : checkUserInfo event with
        | error e => exact ⟨_, rfl⟩
        | ok u0 =>
          simp only [hb]
          simp only [json_loads, hp]
          simp only [pySubscript, hm]
          exact ⟨_, rfl⟩
  obtain ⟨e, he⟩ := herr
  constructor
  · unfold lambda_handler
    rw [he]
    rfl
  · exact ⟨strError e, by unfold lambda_handler; rw [he]⟩

/-- The success path of the handler, characterized: when the URL is set,
the identity-claims read raises nothing, the body is a JSON string whose
object carries `message` and a list history (empty when the key is
absent), and the endpoint answers 200 with an object whose
`generated_text` is truthy, the try-body returns that text together
with the original history plus the new user turn and assistant turn -
the response-supplied history (`_updated_history`) never enters the
result. -/
theorem runHandler_success (u : String) (net : String → String → HttpOutcome)
    (event : Json) (bodyStr rbody : String)
    (bodyFields apiFields : List (String × Json))
    (mv gt : Json) (ch : List Json)
    (hu : u ≠ "")
    (hchk : checkUserInfo event = Except.ok ())
    (hb : pySubscript event "body" = Except.ok (Json.str bodyStr))
    (hp : jsonParse bodyStr = some (Json.obj bodyFields))
    (hm : objGet bodyFields "message" = some mv)
    (hch : (objGet bodyFields "conversationHistory").getD (Json.arr []) = Json.arr ch)
    (hnet : net u (jsonDumps (Json.obj [("prompt", mv), ("conversationHistory", Json.arr ch)])) =
      HttpOutcome.response 200 rbody)
    (hr : jsonParse rbody = some (Json.obj apiFields))
    (hgt : objGet apiFields "generated_text" = some gt)
    (hfalsy : pyFalsy gt = false) :
    runHandler (some u) net event = Except.ok (gt,
      Json.arr (ch ++ [Json.obj [("role", Json.str "user"), ("content", mv)],
                       Json.obj [("role", Json.str "assistant"), ("content", gt)]])) := by
  simp only [runHandler, if_neg hu, hchk]
  simp only [hb]
  simp only [json_loads, hp]
  simp only [pySubscript, hm]
  simp only [pyDictGet, hch]
  simp only [hnet]
  simp only [json_loads, hr]
  simp only [pyDictGet, hgt, Option.getD_some]
  simp only [hfalsy]
  simp only [pyCopy, pyListAppend, List.append_assoc, List.cons_append, List.nil_append]
  rfl

/-- C1 refutation: the URL is set, the body parses as JSON with the
non-empty string message `hi`, and the endpoint answers 200 with the
non-empty `generated_text` string `X`, yet the handler returns status
500, not the claimed 200 success envelope, because the event also
carries a non-sequence `conversationHistory`. -/
theorem C1_counterexample :
    jsonParse (jsonDumps (Json.obj [("message", Json.str "hi"), ("conversationHistory", Json.num 7)])) =
      some (Json.obj [("message", Json.str "hi"), ("conversationHistory", Json.num 7)]) ∧
    objGet [("message", Json.str "hi"), ("conversationHistory", Json.num 7)] "message" =
      some (Json.str "hi") ∧
    c1Net "http://api.example"
        (jsonDumps (Json.obj [("prompt", Json.str "hi"), ("conversationHistory", Json.num 7)])) =
      HttpOutcome.response 200 (jsonDumps (Json.obj [("generated_text", Json.str "X")])) ∧
    jsonParse (jsonDumps (Json.obj [("generated_text", Json.str "X")])) =
      some (Json.obj [("generated_text", Json.str "X")]) ∧
    (lambda_handler (some "http://api.example") c1Net c1Event).statusCode = 500 :=
  ⟨rfl, rfl, rfl, rfl, rfl⟩

/-- C1 (amended): for an invocation whose body parses as JSON with a
non-empty string `message`, when the URL is set, the identity-claims
read raises nothing, the `conversationHistory` (empty when absent) is a
sequence, and the endpoint replies 200 with a JSON object whose
`generated_text` is a non-empty string `X`, the handler returns the 200
success envelope with `success = true` and `response = X`. -/
theorem C1_success_response (u : String) (net : String → String → HttpOutcome)
    (event : Json) (bodyStr rbody m X : String)
    (bodyFields apiFields : List (String × Json)) (ch : List Json)
    (hu : u ≠ "")
    (hchk : checkUserInfo event = Except.ok ())
    (hb : pySubscript event "body" = Except.ok (Json.str bodyStr))
    (hp : jsonParse bodyStr = some (Json.obj bodyFields))
    (hm : objGet bodyFields "message" = some (Json.str m))
    (hmne : m ≠ "")
    (hch : (objGet bodyFields "conversationHistory").getD (Json.arr []) = Json.arr ch)
    (hnet : net u (jsonDumps (Json.obj [("prompt", Json.str m), ("conversationHistory", Json.arr ch)])) =
      HttpOutcome.response 200 rbody)
    (hr : jsonParse rbody = some (Json.obj apiFields))
    (hgt : objGet apiFields "generated_text" = some (Json.str X))
    (hX : X ≠ "") :
    (lambda_handler (some u) net event).statusCode = 200 ∧
    ∃ msgs, lambda_handler (some u) net event = successEnvelope (Json.str X) msgs := by
  have hrun := runHandler_success u net event bodyStr rbody bodyFields apiFields
    (Json.str m) (Json.str X) ch hu hchk hb hp hm hch hnet hr hgt
    (by simp [pyFalsy, hX])
  unfold lambda_handler
  rw [hrun]
  exact ⟨rfl, _, rfl⟩

/-- C1 witness: the amended claim holds at a concrete input. -/
theorem C1_success_response_witness :
    (lambda_handler (some "http://api.example") w1Net w1Event).statusCode = 200 ∧
    ∃ msgs, lambda_handler (some "http://api.example") w1Net w1Event =
      successEnvelope (Json.str "X") msgs :=
  C1_success_response "http://api.example" w1Net w1Event
    (jsonDumps (Json.obj [("message", Json.str "hi")]))
    (jsonDumps (Json.obj [("generated_text", Json.str "X")]))
    "hi" "X" [("message", Json.str "hi")] [("generated_text", Json.str "X")] []
    (by decide) rfl rfl rfl rfl (by decide) rfl rfl rfl rfl (by decide)

/-- C2: on the success path the returned `conversationHistory` is the
inbound history (empty when absent, in its original order) with exactly
the new user turn and the new assistant turn appended, whatever
`conversationHistory` value the downstream response body carried
(`apiFields` is arbitrary here, so it may contain any such field - the
code computes `updated_history` from it and never uses it). -/
theorem C2_history_reconstruction (u : String) (net : String → String → HttpOutcome)
    (event : Json) (bodyStr rbody gt : String)
    (bodyFields apiFields : List (String × Json)) (mv : Json) (ch : List Json)
    (hu : u ≠ "")
    (hchk : checkUserInfo event = Except.ok ())
    (hb : pySubscript event "body" = Except.ok (Json.str bodyStr))
    (hp : jsonParse bodyStr = some (Json.obj bodyFields))
    (hm : objGet bodyFields "message" = some mv)
    (hch : (objGet bodyFields "conversationHistory").getD (Json.arr []) = Json.arr ch)
    (hnet : net u (jsonDumps (Json.obj [("prompt", mv), ("conversationHistory", Json.arr ch)])) =
      HttpOutcome.response 200 rbody)
    (hr : jsonParse rbody = some (Json.obj apiFields))
    (hgt : objGet apiFields "generated_text" = some (Json.str gt))
    (hgtne : gt ≠ "") :
    lambda_handler (some u) net event =
      successEnvelope (Json.str gt)
        (Json.arr (ch ++ [Json.obj [("role", Json.str "user"), ("content", mv)],
                          Json.obj [("role", Json.str "assistant"), ("content", Json.str gt)]])) := by
  have hrun := runHandler_success u net event bodyStr rbody bodyFields apiFields
    mv (Json.str gt) ch hu hchk hb hp hm hch hnet hr hgt
    (by simp [pyFalsy, hgtne])
  unfold lambda_handler
  rw [hrun]

/-- C2 witness: at the inbound history `[[user, hi]]`, message `there`
and downstream text `ok` (with a downstream-supplied history present and
discarded), the returned history is exactly
`[[user, hi], [user, there], [assistant, ok]]`. -/
theorem C2_history_reconstruction_witness :
    lambda_handler (some "http://api.example") w2Net w2Event =
      successEnvelope (Json.str "ok")
        (Json.arr ([Json.obj [("role", Json.str "user"), ("content", Json.str "hi")]] ++
          [Json.obj [("role", Json.str "user"), ("content", Json.str "there")],
           Json.obj [("role", Json.str "assistant"), ("content", Json.str "ok")]])) :=
  C2_history_reconstruction "http://api.example" w2Net w2Event
    (jsonDumps (Json.obj
      [("message", Json.str "there"),
       ("conversationHistory", Json.arr [Json.obj
         [("role", Json.str "user"), ("content", Json.str "hi")]])]))
    (jsonDumps (Json.obj
      [("generated_text", Json.str "ok"),
       ("conversationHistory", Json.arr [Json.str "bogus"])]))
    "ok"
    [("message", Json.str "there"),
     ("conversationHistory", Json.arr [Json.obj
       [("role", Json.str "user"), ("content", Json.str "hi")]])]
    [("generated_text", Json.str "ok"),
     ("conversationHistory", Json.arr [Json.str "bogus"])]
    (Json.str "there")
    [Json.obj [("role", Json.str "user"), ("content", Json.str "hi")]]
    (by decide) rfl rfl rfl rfl rfl rfl rfl rfl (by decide)

/-- C6: when the endpoint replies 200 with a JSON object that has no
`generated_text` field, or whose `generated_text` is the empty string,
the handler returns the 500 envelope carrying the no-content error
text. -/
theorem C6_no_generated_text (u : String) (net : String → String → HttpOutcome)
    (event : Json) (bodyStr rbody : String)
    (bodyFields apiFields : List (String × Json)) (mv ch : Json)
    (hu : u ≠ "")
    (hchk : checkUserInfo event = Except.ok ())
    (hb : pySubscript event "body" = Except.ok (Json.str bodyStr))
    (hp : jsonParse bodyStr = some (Json.obj bodyFields))
    (hm : objGet bodyFields "message" = some mv)
    (hch : (objGet bodyFields "conversationHistory").getD (Json.arr []) = ch)
    (hnet : net u (jsonDumps (Json.obj [("prompt", mv), ("conversationHistory", ch)])) =
      HttpOutcome.response 200 rbody)
    (hr : jsonParse rbody = some (Json.obj apiFields))
    (hgt : objGet apiFields "generated_text" = none ∨
           objGet apiFields "generated_text" = some (Json.str "")) :
    (lambda_handler (some u) net event).statusCode = 500 ∧
    lambda_handler (some u) net event =
      errorEnvelope "No generated_text content received from FastAPI endpoint." := by
  have hrun : runHandler (some u) net event =
      Except.error (PyError.exception "No generated_text content received from FastAPI endpoint.") := by
    simp only [runHandler, if_neg hu, hchk]
    simp only [hb]
    simp only [json_loads, hp]
    simp only [pySubscript, hm]
    simp only [pyDictGet, hch]
    simp only [hnet]
    simp only [json_loads, hr]
    rcases hgt with hgt | hgt
    · simp only [pyDictGet, hgt, Option.getD_none, pyFalsy]
      rfl
    · simp only [pyDictGet, hgt, Option.getD_some, pyFalsy]
      rfl
  unfold lambda_handler
  rw [hrun]
  exact ⟨rfl, rfl⟩

/-- C6 witness: a 200 downstream answer with body lacking
`generated_text` produces the 500 no-content envelope. -/
theorem C6_no_generated_text_witness :
    (lambda_handler (some "http://api.example") w6Net w1Event).statusCode = 500 ∧
    lambda_handler (some "http://api.example") w6Net w1Event =
      errorEnvelope "No generated_text content received from FastAPI endpoint." :=
  C6_no_generated_text "http://api.example" w6Net w1Event
    (jsonDumps (Json.obj [("message", Json.str "hi")]))
    (jsonDumps (Json.obj []))
    [("message", Json.str "hi")] [] (Json.str "hi") (Json.arr [])
    (by decide) rfl rfl rfl rfl rfl rfl rfl (Or.inl rfl)

/-- C7: when the endpoint answers with a non-200 status - whether the
transport hands back a response object with that code or raises an
HTTPError carrying it - the handler returns a 500 envelope whose error
text contains the status code. -/
theorem C7_non_200_status (u : String) (net : String → String → HttpOutcome)
    (event : Json) (bodyStr rbody reason : String) (code : Nat)
    (bodyFields : List (String × Json)) (mv ch : Json)
    (hu : u ≠ "")
    (hchk : checkUserInfo event = Except.ok ())
    (hb : pySubscript event "body" = Except.ok (Json.str bodyStr))
    (hp : jsonParse bodyStr = some (Json.obj bodyFields))
    (hm : objGet bodyFields "message" = some mv)
    (hch : (objGet bodyFields "conversationHistory").getD (Json.arr []) = ch)
    (hnet : (net u (jsonDumps (Json.obj [("prompt", mv), ("conversationHistory", ch)])) =
              HttpOutcome.response code rbody ∧ code ≠ 200) ∨
            net u (jsonDumps (Json.obj [("prompt", mv), ("conversationHistory", ch)])) =
              HttpOutcome.httpError code reason) :
    (lambda_handler (some u) net event).statusCode = 500 ∧
    ∃ msg pre suf, lambda_handler (some u) net event = errorEnvelope msg ∧
      msg = pre ++ toString code ++ suf := by
  have step : ∀ e : PyError, runHandler (some u) net event = Except.error e →
      (lambda_handler (some u) net event).statusCode = 500 ∧
      lambda_handler (some u) net event = errorEnvelope (strError e) := by
    intro e he
    unfold lambda_handler
    rw [he]
    exact ⟨rfl, rfl⟩
  rcases hnet with ⟨hnet, hcode⟩ | hnet
  · have hrun : runHandler (some u) net event =
        Except.error (PyError.exception ("FastAPI endpoint returned status code " ++ toString code)) := by
      simp only [runHandler, if_neg hu, hchk]
      simp only [hb]
      simp only [json_loads, hp]
      simp only [pySubscript, hm]
      simp only [pyDictGet, hch]
      simp only [hnet, if_neg hcode]
    obtain ⟨h1, h2⟩ := step _ hrun
    exact ⟨h1, _, "FastAPI endpoint returned status code ", "", h2,
      (String.append_empty _).symm⟩
  · have hrun : runHandler (some u) net event =
        Except.error (PyError.exception
          ("Failed to call FastAPI endpoint: " ++ toString code ++ " " ++ reason)) := by
      simp only [runHandler, if_neg hu, hchk]
      simp only [hb]
      simp only [json_loads, hp]
      simp only [pySubscript, hm]
      simp only [pyDictGet, hch]
      simp only [hnet]
    obtain ⟨h1, h2⟩ := step _ hrun
    exact ⟨h1, _, "Failed to call FastAPI endpoint: ", " " ++ reason, h2,
      String.append_assoc _ _ _⟩

/-- C7 witness: a 404 from the endpoint produces a 500 envelope whose
error text contains `404`. -/
theorem C7_non_200_status_witness :
    (lambda_handler (some "http://api.example") w7Net w1Event).statusCode = 500 ∧
    ∃ msg pre suf, lambda_handler (some "http://api.example") w7Net w1Event = errorEnvelope msg ∧
      msg = pre ++ toString 404 ++ suf :=
  C7_non_200_status "http://api.example" w7Net w1Event
    (jsonDumps (Json.obj [("message", Json.str "hi")]))
    "" "Not Found" 404
    [("message", Json.str "hi")] (Json.str "hi") (Json.arr [])
    (by decide) rfl rfl rfl rfl rfl (Or.inr rfl)

/-- The handler reads the event at exactly two places: the identity
claims check of lines 41-44 and `event[body]` of line 47; two events
that agree on both produce the same envelope for every configuration
and network behaviour. -/
theorem lambda_handler_event_congr (url : Option String)
    (net : String → String → HttpOutcome) (e1 e2 : Json)
    (h1 : checkUserInfo e1 = checkUserInfo e2)
    (h2 : pySubscript e1 "body" = pySubscript e2 "body") :
    lambda_handler url net e1 = lambda_handler url net e2 := by
  unfold lambda_handler runHandler
  rw [h1, h2]

/-- C3 refutation: two events identical except for the presence of the
`requestContext.authorizer.claims` mapping, under the same configuration
and downstream behaviour, produce different envelopes: with claims the
invocation succeeds (200), without them the subscript of line 43 raises
KeyError and the handler returns 500.  Presence of the claims data does
affect the response. -/
theorem C3_counterexample :
    (lambda_handler (some "http://api.example") c3Net c3EventWith).statusCode = 200 ∧
    (lambda_handler (some "http://api.example") c3Net c3EventWithout).statusCode = 500 ∧
    lambda_handler (some "http://api.example") c3Net c3EventWith ≠
      lambda_handler (some "http://api.example") c3Net c3EventWithout := by
  refine ⟨rfl, rfl, ?_⟩
  intro h
  have hc := congrArg Envelope.statusCode h
  have h200 : (lambda_handler (some "http://api.example") c3Net c3EventWith).statusCode = 200 := rfl
  have h500 : (lambda_handler (some "http://api.example") c3Net c3EventWithout).statusCode = 500 := rfl
  rw [h200, h500] at hc
  exact absurd hc (by decide)

/-- C3 (amended): the content of the claims mapping never affects the
envelope: two events identical except for the entries of the claims
mapping (present as a mapping in both) yield the same envelope for
every configuration and network behaviour.  (Presence still matters,
per the counterexample: a missing claims key under an existing
authorizer turns the invocation into a 500.) -/
theorem C3_claims_content_irrelevant (url : Option String)
    (net : String → String → HttpOutcome)
    (f1 f2 : List (String × Json)) (authRest rcRest rest : List (String × Json)) :
    lambda_handler url net (eventWithClaims (Json.obj f1) authRest rcRest rest) =
    lambda_handler url net (eventWithClaims (Json.obj f2) authRest rcRest rest) := by
  apply lambda_handler_event_congr
  · rfl
  · rfl

/-- C8 witness: a concrete event whose body is a JSON object without
`message` yields the 500 error envelope. -/
theorem C8_missing_message_witness :
    pySubscript (Json.obj [("body", Json.str (jsonDumps (Json.obj [("x", Json.num 1)])))]) "body" =
      Except.ok (Json.str (jsonDumps (Json.obj [("x", Json.num 1)]))) ∧
    jsonParse (jsonDumps (Json.obj [("x", Json.num 1)])) = some (Json.obj [("x", Json.num 1)]) ∧
    objGet [("x", Json.num 1)] "message" = none ∧
    ((lambda_handler (some "http://api.example") (fun _ _ => HttpOutcome.urlError "refused")
        (Json.obj [("body", Json.str (jsonDumps (Json.obj [("x", Json.num 1)])))])).statusCode = 500 ∧
     ∃ msg, lambda_handler (some "http://api.example") (fun _ _ => HttpOutcome.urlError "refused")
        (Json.obj [("body", Json.str (jsonDumps (Json.obj [("x", Json.num 1)])))]) = errorEnvelope msg) :=
  ⟨rfl, rfl, rfl,
    C8_missing_message (some "http://api.example") (fun _ _ => HttpOutcome.urlError "refused")
      (Json.obj [("body", Json.str (jsonDumps (Json.obj [("x", Json.num 1)])))])
      (jsonDumps (Json.obj [("x", Json.num 1)])) [("x", Json.num 1)] rfl rfl rfl⟩
